import Mathlib

/-!
Verification development for the momoapi-node client library.

Source files embedded here:
- `src/src/disbursements.ts` — the Disbursements product façade
  (`transfer`, `getTransaction`, `getBalance`, `isPayerActive`).
- `src/unnamed/part_000` — the top-level factory that validates configuration,
  merges configuration layers and wires each product handle to its transport.
- `src/tests/mock.ts` — the mocked HTTP endpoints (used for concrete scenarios).

Parts of the repository that are referenced but not present under `src/`
(`auth.ts`, `client.ts`, `validate.ts`, `types.ts`) are modelled from the
spec where a claim depends on them; each such definition carries a doc
comment starting with `Modelled from the spec:`.
-/

/- ### Data model (types.ts, referenced from src/src/disbursements.ts) -/

/-- Party identifier type. The three variants are enumerated in the doc
comments of `src/src/disbursements.ts` (MSISDN, EMAIL, PARTY_CODE). -/
inductive PartyIdType
  | MSISDN
  | EMAIL
  | PARTY_CODE
deriving DecidableEq

/-- Modelled from the spec: the URL rendering of a `PartyIdType`, matching the
path patterns accepted by the mocked endpoints in `src/tests/mock.ts`. -/
def PartyIdType.toUrlString : PartyIdType → String
  | PartyIdType.MSISDN => "MSISDN"
  | PartyIdType.EMAIL => "EMAIL"
  | PartyIdType.PARTY_CODE => "PARTY_CODE"

/-- Payee: an account holder in the wallet platform
(`src/src/disbursements.ts`, `PayoutRequest.payee`). -/
structure Payee where
  partyIdType : PartyIdType
  partyId : String
deriving DecidableEq

/-- Request payload for `Disbursements.transfer`
(`src/src/disbursements.ts`, interface `PayoutRequest`).
Optional fields are `Option`-valued. -/
structure PayoutRequest where
  amount : String
  currency : String
  externalId : Option String
  payee : Payee
  payerMessage : Option String
  payeeNote : Option String
  callbackUrl : Option String
deriving DecidableEq

/-- The rest object `payoutRequest` produced by the destructuring
`{ callbackUrl, ...payoutRequest }` in `Disbursements.transfer`:
every field of `PayoutRequest` except `callbackUrl`. -/
structure TransferBody where
  amount : String
  currency : String
  externalId : Option String
  payee : Payee
  payerMessage : Option String
  payeeNote : Option String
deriving DecidableEq

/-- The destructuring `{ callbackUrl, ...payoutRequest }` of
`src/src/disbursements.ts` line 113: drops `callbackUrl`, keeps every other
field unchanged. -/
def stripCallbackUrl (r : PayoutRequest) : TransferBody :=
  { amount := r.amount
    currency := r.currency
    externalId := r.externalId
    payee := r.payee
    payerMessage := r.payerMessage
    payeeNote := r.payeeNote }

/-- Transaction status (types.ts, values observed in `src/tests/mock.ts`). -/
inductive TransactionStatus
  | SUCCESSFUL
  | PENDING
  | FAILED
deriving DecidableEq

/-- Response record of `GET /disbursement/v1_0/transfer/{referenceId}`
(`src/src/disbursements.ts`, interface `Transfer`). The failure reason is
kept opaque as a string. -/
structure Transfer where
  amount : String
  currency : String
  financialTransactionId : String
  externalId : String
  payee : Payee
  status : TransactionStatus
  reason : Option String
deriving DecidableEq

/-- Response record of `GET /disbursement/v1_0/account/balance`
(types.ts `AccountBalance`; fields observed in `src/tests/mock.ts` and §6 of
the spec). -/
structure AccountBalance where
  availableBalance : String
  currency : String
deriving DecidableEq

/- ### HTTP layer -/

/-- HTTP method of a business request. -/
inductive Method
  | GET
  | POST
deriving DecidableEq

/-- An outgoing HTTP request as built by a façade: method, path, headers
(ordered as the source writes them), and the JSON body when present. -/
structure HttpRequest where
  method : Method
  path : String
  headers : List (String × String)
  body : Option TransferBody
deriving DecidableEq

/-- Whether a request carries a header with the given name. -/
def hasHeader (name : String) (r : HttpRequest) : Bool :=
  r.headers.any (fun h => h.1 == name)

/-- The value of the first header with the given name, if any. -/
def headerValue (name : String) (r : HttpRequest) : Option String :=
  (r.headers.find? (fun h => h.1 == name)).map (fun h => h.2)

/-- A resolved HTTP response: axios resolves with an object whose `data`
field is the decoded body. -/
structure HttpResponse (α : Type) where
  data : α
deriving DecidableEq

/-- Error raised by the external validation collaborator (validate.ts). -/
structure ValidationError where
  message : String
deriving DecidableEq

/-- A rejected HTTP call (non-success status), surfaced unmodified. -/
structure RemoteError where
  status : Nat
deriving DecidableEq

/-- Error raised synchronously for invalid or missing configuration. -/
structure ConfigurationError where
  message : String
deriving DecidableEq

/-- Outcome of `Disbursements.transfer`: a validation rejection or a rejected
remote call. -/
inductive TransferError
  | validation (e : ValidationError)
  | remote (e : RemoteError)
deriving DecidableEq

/- ### Disbursements façade (src/src/disbursements.ts) -/

/-- The single POST request built by `Disbursements.transfer`
(lines 119-125): path `/disbursement/v1_0/transfer`, body the rest object
without `callbackUrl`, header `X-Reference-Id` set to the generated
reference id, and `X-Callback-Url` spread in only when `callbackUrl` is
truthy (`callbackUrl ? { "X-Callback-Url": callbackUrl } : {}` — the empty
string is falsy in JavaScript). -/
def Disbursements.transferRequest (referenceId : String)
    (paymentRequest : PayoutRequest) : HttpRequest :=
  { method := Method.POST
    path := "/disbursement/v1_0/transfer"
    headers := ("X-Reference-Id", referenceId) ::
      (match paymentRequest.callbackUrl with
       | some u => if u == "" then [] else [("X-Callback-Url", u)]
       | none => [])
    body := some (stripCallbackUrl paymentRequest) }

/-- Observable outcome of one `Disbursements.transfer` call: the promise
result, the HTTP requests issued (in order), how many times the uuid
generator was invoked, and the arguments passed to the external
`validateTransfer` collaborator. -/
structure TransferRun where
  result : Except TransferError String
  issued : List HttpRequest
  uuidCalls : Nat
  validatedBodies : List TransferBody

/-- `Disbursements.transfer` (`src/src/disbursements.ts` lines 113-129).
The external collaborators — `validateTransfer` from validate.ts, the uuid
generator, and the axios client — are parameters: `uuid` is the value the
generator returns on its single invocation, and `client` maps the issued
request to the promise outcome of `client.post`. Mirrors the promise chain
`validateTransfer(payoutRequest).then(() => { const referenceId = uuid();
return this.client.post(...).then(resp => console.log(resp.config))
.then(() => referenceId); })`. -/
def Disbursements.transfer
    (validateTransfer : TransferBody → Except ValidationError Unit)
    (uuid : String)
    (client : HttpRequest → Except RemoteError (HttpResponse Unit))
    (paymentRequest : PayoutRequest) : TransferRun :=
  let payoutRequest := stripCallbackUrl paymentRequest
  match validateTransfer payoutRequest with
  | Except.error e =>
      { result := Except.error (TransferError.validation e)
        issued := []
        uuidCalls := 0
        validatedBodies := [payoutRequest] }
  | Except.ok _ =>
      let referenceId := uuid
      let req := Disbursements.transferRequest referenceId paymentRequest
      match client req with
      | Except.error e =>
          { result := Except.error (TransferError.remote e)
            issued := [req]
            uuidCalls := 1
            validatedBodies := [payoutRequest] }
      | Except.ok _ =>
          { result := Except.ok referenceId
            issued := [req]
            uuidCalls := 1
            validatedBodies := [payoutRequest] }

/-- The GET request built by `Disbursements.getTransaction`
(`src/src/disbursements.ts` lines 136-140). -/
def Disbursements.getTransactionRequest (referenceId : String) : HttpRequest :=
  { method := Method.GET
    path := "/disbursement/v1_0/transfer/" ++ referenceId
    headers := []
    body := none }

/-- `Disbursements.getTransaction`: one GET, resolving with
`response.data`. Returns the promise outcome and the issued requests. -/
def Disbursements.getTransaction
    (client : HttpRequest → Except RemoteError (HttpResponse Transfer))
    (referenceId : String) :
    Except RemoteError Transfer × List HttpRequest :=
  let req := Disbursements.getTransactionRequest referenceId
  ((client req).map HttpResponse.data, [req])

/-- The GET request built by `Disbursements.getBalance`
(`src/src/disbursements.ts` lines 145-149). -/
def Disbursements.getBalanceRequest : HttpRequest :=
  { method := Method.GET
    path := "/disbursement/v1_0/account/balance"
    headers := []
    body := none }

/-- `Disbursements.getBalance`: one GET, resolving with `response.data`. -/
def Disbursements.getBalance
    (client : HttpRequest → Except RemoteError (HttpResponse AccountBalance)) :
    Except RemoteError AccountBalance × List HttpRequest :=
  let req := Disbursements.getBalanceRequest
  ((client req).map HttpResponse.data, [req])

/-- The GET request built by `Disbursements.isPayerActive`
(`src/src/disbursements.ts` lines 160-169):
path `/disbursement/v1_0/accountholder/{type}/{id}/active`. -/
def Disbursements.isPayerActiveRequest (ptype : PartyIdType) (id : String) :
    HttpRequest :=
  { method := Method.GET
    path := "/disbursement/v1_0/accountholder/" ++ ptype.toUrlString ++ "/"
      ++ id ++ "/active"
    headers := []
    body := none }

/-- `Disbursements.isPayerActive`: one GET, resolving with `response.data`. -/
def Disbursements.isPayerActive
    (client : HttpRequest → Except RemoteError (HttpResponse String))
    (id : String) (ptype : PartyIdType) :
    Except RemoteError String × List HttpRequest :=
  let req := Disbursements.isPayerActiveRequest ptype id
  ((client req).map HttpResponse.data, [req])

/- ### Transport wiring (src/unnamed/part_000, with client.ts and auth.ts
modelled from the spec) -/

/-- Modelled from the spec: client.ts and auth.ts are not under `src/`.
§4.3 — the AuthenticatingTransport "obtains a valid token from its
TokenRefresher and attaches it as a bearer credential" before every
outgoing request. -/
def attachBearer (token : String) (r : HttpRequest) : HttpRequest :=
  { r with headers := ("Authorization", "Bearer " ++ token) :: r.headers }

/-- Whether a request carries the bearer credential header. -/
def hasBearer (r : HttpRequest) : Bool :=
  hasHeader "Authorization" r

/-- Which transport a handle was wired to by the factory:
`createClient` (plain) or `createAuthClient` (authenticated). -/
inductive TransportKind
  | plain
  | authenticated
deriving DecidableEq

/-- Modelled from the spec: what each transport does to an outgoing façade
request before it reaches the wire. The plain transport passes it through;
the AuthenticatingTransport attaches the bearer token currently held by the
TokenRefresher (§4.3). -/
def issueThrough (tk : TransportKind) (token : String) (r : HttpRequest) :
    HttpRequest :=
  match tk with
  | TransportKind.plain => r
  | TransportKind.authenticated => attachBearer token r

/-- A configuration layer, as a finite assignment of keys to values —
the shape JavaScript object spread operates on. -/
def ConfigMap : Type := String → Option String

/-- JavaScript object spread `{ ...a, ...b }`: a key present in `b`
overrides `a`. -/
def spreadOver (a b : ConfigMap) : ConfigMap :=
  fun k =>
    match b k with
    | some v => some v
    | none => a k

/-- `defaultGlobalConfig` from `src/unnamed/part_000` lines 36-39. -/
def defaultGlobalConfig : ConfigMap :=
  fun k =>
    if k == "baseUrl" then some "https://ericssonbasicapi2.azure-api.net"
    else if k == "environment" then some "sandbox"
    else none

/-- The configuration value built at handle construction:
`{ ...defaultGlobalConfig, ...globalConfig, ...productConfig }`
(`src/unnamed/part_000`, Collections lines 48-52 and Disbursements
lines 62-66 build exactly this merge). -/
def buildConfig (globalConfig productConfig : ConfigMap) : ConfigMap :=
  spreadOver (spreadOver defaultGlobalConfig globalConfig) productConfig

/-- What the factory wired for one product handle: the transport kind, whether
a TokenRefresher was created for it, and the merged configuration. -/
structure HandleDescr where
  transport : TransportKind
  tokenRefresherCreated : Bool
  config : ConfigMap

/-- The `Collections` closure of the factory (`src/unnamed/part_000` lines
45-59): calls `validateProductConfig(productConfig)` (a throw is modelled as
`Except.error`), merges the configuration, and wires the handle to
`createAuthClient(createTokenRefresher(authorizeCollections, config),
createClient(config))`. The external `validateProductConfig` (validate.ts,
not under `src/`) is a parameter. -/
def makeCollections
    (validateProductConfig : ConfigMap → Except ConfigurationError Unit)
    (globalConfig productConfig : ConfigMap) :
    Except ConfigurationError HandleDescr :=
  match validateProductConfig productConfig with
  | Except.error e => Except.error e
  | Except.ok _ =>
      Except.ok
        { transport := TransportKind.authenticated
          tokenRefresherCreated := true
          config := buildConfig globalConfig productConfig }

/-- The `Disbursements` closure of the factory (`src/unnamed/part_000` lines
61-74): merges the configuration and wires the handle to
`createAuthClient(createTokenRefresher(authorizeDisbursements, config),
createClient(config))`. Note: unlike the `Collections` and `Users` closures,
this closure performs NO validation call — `validateProductConfig` is
imported by the factory module but never invoked here, so the parameter is
unused, exactly as in the source. -/
def makeDisbursements
    (_validateProductConfig : ConfigMap → Except ConfigurationError Unit)
    (globalConfig productConfig : ConfigMap) :
    Except ConfigurationError HandleDescr :=
  Except.ok
    { transport := TransportKind.authenticated
      tokenRefresherCreated := true
      config := buildConfig globalConfig productConfig }

/-- The `Users` closure of the factory (`src/unnamed/part_000` lines 76-88):
calls `validateSubscriptionConfig(subscriptionConfig)`, merges the
configuration, and wires the handle to the plain `createClient(config)` —
no `createTokenRefresher` and no `createAuthClient`. -/
def makeUsers
    (validateSubscriptionConfig : ConfigMap → Except ConfigurationError Unit)
    (globalConfig subscriptionConfig : ConfigMap) :
    Except ConfigurationError HandleDescr :=
  match validateSubscriptionConfig subscriptionConfig with
  | Except.error e => Except.error e
  | Except.ok _ =>
      Except.ok
        { transport := TransportKind.plain
          tokenRefresherCreated := false
          config := buildConfig globalConfig subscriptionConfig }

/- ### TokenRefresher (auth.ts, modelled from the spec) -/

/-- Modelled from the spec: the error signalled when the token endpoint
rejects credentials (§7 `AuthenticationFailure`). -/
structure AuthenticationFailure where
  message : String
deriving DecidableEq

/-- Modelled from the spec: a bearer token — an opaque value plus an
absolute expiry instant (§3). -/
structure Token where
  value : String
  expiresAt : Nat
deriving DecidableEq

/-- Modelled from the spec: the TokenRefresher state
`{Empty, Cached(Token), Refreshing}` (§3). -/
inductive RState
  | empty
  | cached (t : Token)
  | refreshing
deriving DecidableEq

/-- Modelled from the spec (§4.2): a cached token is usable when its expiry
is safely in the future, applying the safety margin. -/
def tokenUsable (now margin : Nat) : RState → Option Token
  | RState.cached t => if now + margin < t.expiresAt then some t else none
  | _ => none

/-- Whether the refresher cache is empty or holds an expired/near-expiry
token — the precondition of the single-flight property. -/
def cacheExpiredOrEmpty (now margin : Nat) : RState → Bool
  | RState.empty => true
  | RState.cached t => decide (t.expiresAt ≤ now + margin)
  | RState.refreshing => false

/-- One simulated TokenRefresher together with its observable history:
how many Authorizer calls were started, how many callers are attached to the
in-flight refresh, and the results already handed out synchronously. -/
structure RefresherSim where
  state : RState
  authorizeCalls : Nat
  waiters : Nat
  resolved : List (Except AuthenticationFailure Token)

/-- Modelled from the spec (§4.2, §5): what one `getToken()` arrival does,
atomically between suspension points. A usable cached token is returned
immediately; a caller arriving while `Refreshing` attaches to the in-flight
call; otherwise the refresher transitions to `Refreshing` and starts exactly
one Authorizer call. -/
def getTokenStep (now margin : Nat) (s : RefresherSim) : RefresherSim :=
  match tokenUsable now margin s.state with
  | some t => { s with resolved := s.resolved ++ [Except.ok t] }
  | none =>
      match s.state with
      | RState.refreshing => { s with waiters := s.waiters + 1 }
      | _ =>
          { s with
            state := RState.refreshing
            authorizeCalls := s.authorizeCalls + 1
            waiters := s.waiters + 1 }

/-- Modelled from the spec (§4.2): completion of the single in-flight
Authorizer call. On success the state becomes `Cached`, on failure `Empty`;
every attached caller resolves with the same outcome. -/
def completeRefresh (outcome : Except AuthenticationFailure Token)
    (s : RefresherSim) :
    RefresherSim × List (Except AuthenticationFailure Token) :=
  ( { s with
      state :=
        match outcome with
        | Except.ok t => RState.cached t
        | Except.error _ => RState.empty
      waiters := 0 }
  , List.replicate s.waiters outcome )

/-- A refresher that has seen no traffic, in the given state. -/
def initialSim (st : RState) : RefresherSim :=
  { state := st, authorizeCalls := 0, waiters := 0, resolved := [] }

/-- Process `n` back-to-back `getToken()` arrivals (the cooperative
single-threaded model of §5: concurrent callers are arrivals interleaved
between suspension points). -/
def stepN (now margin : Nat) : Nat → RefresherSim → RefresherSim
  | 0, s => s
  | n + 1, s => stepN now margin n (getTokenStep now margin s)

/-- The observable outcome of the concurrency scenario of §8: `n` concurrent
`getToken()` arrivals against initial state `st`, after which the (possible)
in-flight Authorizer call completes with `outcome`. Returns the number of
Authorizer calls made and the list of all caller resolutions. -/
def runScenario (now margin n : Nat) (st : RState)
    (outcome : Except AuthenticationFailure Token) :
    Nat × List (Except AuthenticationFailure Token) :=
  let s := stepN now margin n (initialSim st)
  let c := completeRefresh outcome s
  (c.1.authorizeCalls, s.resolved ++ c.2)

/- ### Concrete values for scenario instances -/

/-- The payee used throughout the mocked scenarios (`src/tests/mock.ts`). -/
def payee0 : Payee :=
  { partyIdType := PartyIdType.MSISDN, partyId := "256772000000" }

/-- The transfer payload of the spec's scenario:
`{amount:"2000", currency:"UGX", payee:{partyIdType:"MSISDN",
partyId:"256772000000"}}`. -/
def payoutRequest0 : PayoutRequest :=
  { amount := "2000"
    currency := "UGX"
    externalId := none
    payee := payee0
    payerMessage := none
    payeeNote := none
    callbackUrl := none }

/-- The scenario payload with an empty-string (hence JavaScript-falsy)
`callbackUrl`. -/
def payoutRequestEmptyCb : PayoutRequest :=
  { payoutRequest0 with callbackUrl := some "" }

/-- The scenario payload with a non-empty `callbackUrl`. -/
def payoutRequestCb : PayoutRequest :=
  { payoutRequest0 with callbackUrl := some "http://localhost:8000/callback" }

/-- A validation collaborator that accepts every payload. -/
def alwaysValid : TransferBody → Except ValidationError Unit :=
  fun _ => Except.ok ()

/-- A validation collaborator that rejects every payload. -/
def rejectBody : TransferBody → Except ValidationError Unit :=
  fun _ => Except.error { message := "invalid payload" }

/-- A client whose POST resolves (the mocked 201 on
`POST /disbursement/v1_0/transfer` in `src/tests/mock.ts`). -/
def okClient : HttpRequest → Except RemoteError (HttpResponse Unit) :=
  fun _ => Except.ok { data := () }

/-- A configuration validator that accepts every configuration. -/
def okConfigValidator : ConfigMap → Except ConfigurationError Unit :=
  fun _ => Except.ok ()

/-- A configuration validator that rejects every configuration, standing for
`validateProductConfig` applied to a configuration with missing required
credentials. -/
def rejectConfigValidator : ConfigMap → Except ConfigurationError Unit :=
  fun _ => Except.error { message := "missing required configuration" }

/-- The empty configuration layer. -/
def emptyConfig : ConfigMap := fun _ => none

/-- The handle the factory's `Disbursements` closure builds from empty
configuration layers. -/
def disbHandle0 : HandleDescr :=
  { transport := TransportKind.authenticated
    tokenRefresherCreated := true
    config := buildConfig emptyConfig emptyConfig }

/-- The handle the factory's `Collections` closure builds from empty
configuration layers (under a validator that accepts them). -/
def collectionsHandle0 : HandleDescr :=
  { transport := TransportKind.authenticated
    tokenRefresherCreated := true
    config := buildConfig emptyConfig emptyConfig }

/-- The handle the factory's `Users` closure builds from empty configuration
layers. -/
def usersHandle0 : HandleDescr :=
  { transport := TransportKind.plain
    tokenRefresherCreated := false
    config := buildConfig emptyConfig emptyConfig }

/-- A caller-supplied global configuration layer. -/
def gConfig0 : ConfigMap :=
  fun k =>
    if k == "environment" then some "production"
    else if k == "primaryKey" then some "global-key"
    else none

/-- A product-level configuration layer overriding `primaryKey`. -/
def pConfig0 : ConfigMap :=
  fun k => if k == "primaryKey" then some "product-key" else none

/-- The transaction record returned by the mocked
`GET /disbursement/v1_0/transfer/{referenceId}` (`src/tests/mock.ts`). -/
def transferRecord0 : Transfer :=
  { amount := "2000"
    currency := "UGX"
    financialTransactionId := "tx id"
    externalId := "string"
    payee := payee0
    status := TransactionStatus.SUCCESSFUL
    reason := none }

/-- The balance returned by the mocked
`GET /disbursement/v1_0/account/balance` (`src/tests/mock.ts`). -/
def balance0 : AccountBalance :=
  { availableBalance := "2000", currency := "UGX" }

/-- A concrete token, as minted by the mocked token endpoint
(`access_token: "token"`, `expires_in: 3600`). -/
def token0 : Token := { value := "token", expiresAt := 3600 }

/- ### Theorems -/

/-- Helper: a `getToken()` arrival while a refresh is in flight only attaches
to it — no new Authorizer call, no immediate resolution. -/
theorem getTokenStep_of_refreshing (now margin : Nat) (s : RefresherSim)
    (h : s.state = RState.refreshing) :
    getTokenStep now margin s = { s with waiters := s.waiters + 1 } := by
  simp [getTokenStep, tokenUsable, h]

/-- Helper: any number of arrivals during an in-flight refresh only attach. -/
theorem stepN_of_refreshing (now margin : Nat) :
    ∀ (k : Nat) (s : RefresherSim), s.state = RState.refreshing →
      stepN now margin k s = { s with waiters := s.waiters + k } := by
  intro k
  induction k with
  | zero => intro s h; rfl
  | succ m ih =>
      intro s h
      rw [stepN, getTokenStep_of_refreshing now margin s h]
      have h2 : ({ s with waiters := s.waiters + 1 } : RefresherSim).state
          = RState.refreshing := h
      rw [ih _ h2]
      have hw : s.waiters + 1 + m = s.waiters + (m + 1) := by omega
      simp only [hw]

/-- Helper: the first arrival against an empty or expired cache starts exactly
one Authorizer call and transitions the refresher to `Refreshing`. -/
theorem getTokenStep_start (now margin : Nat) (st : RState)
    (h : cacheExpiredOrEmpty now margin st = true) :
    getTokenStep now margin (initialSim st) =
      { state := RState.refreshing, authorizeCalls := 1, waiters := 1,
        resolved := [] } := by
  cases st with
  | empty => rfl
  | cached t =>
      have hle : t.expiresAt ≤ now + margin := by
        simpa [cacheExpiredOrEmpty] using h
      have hnlt : ¬ now + margin < t.expiresAt := by omega
      simp [getTokenStep, initialSim, tokenUsable, hnlt]
  | refreshing => simp [cacheExpiredOrEmpty] at h

/-- C1: for every N ≥ 2 concurrent `getToken()` calls against a TokenRefresher
whose cache is empty or expired, exactly one `Authorizer.authorize` call is
made, and all N calls resolve with the same outcome: the same token when the
single call succeeds, the same `AuthenticationFailure` when it fails. -/
theorem tokenRefresher_single_flight
    (now margin n : Nat) (st : RState)
    (outcome : Except AuthenticationFailure Token)
    (hn : 2 ≤ n) (hst : cacheExpiredOrEmpty now margin st = true) :
    (runScenario now margin n st outcome).1 = 1 ∧
    (runScenario now margin n st outcome).2 = List.replicate n outcome := by
  obtain ⟨m, rfl⟩ : ∃ m, n = m + 1 := by
    cases n with
    | zero => omega
    | succ k => exact ⟨k, rfl⟩
  have hrun : stepN now margin (m + 1) (initialSim st) =
      { state := RState.refreshing, authorizeCalls := 1, waiters := 1 + m,
        resolved := [] } := by
    rw [stepN, getTokenStep_start now margin st hst,
        stepN_of_refreshing now margin m _ rfl]
  constructor
  · simp [runScenario, hrun, completeRefresh]
  · simp [runScenario, hrun, completeRefresh, Nat.add_comm]

/-- Witness for C1: two concurrent calls against an empty cache, a succeeding
authorization. -/
theorem tokenRefresher_single_flight_witness :
    (runScenario 0 0 2 RState.empty (Except.ok token0)).1 = 1 ∧
    (runScenario 0 0 2 RState.empty (Except.ok token0)).2 =
      List.replicate 2 (Except.ok token0) :=
  tokenRefresher_single_flight 0 0 2 RState.empty (Except.ok token0)
    (by decide) rfl

/-- C2: for every valid `PayoutRequest`, `transfer` resolves with exactly the
client-side generated reference identifier whenever the POST resolves (the
mocked 201), invoking the generator exactly once; the resolved value is the
same for every possible response, so it is never derived from the response
body. -/
theorem transfer_resolves_with_generated_reference
    (validateTransfer : TransferBody → Except ValidationError Unit)
    (uuid : String) (resp : HttpResponse Unit) (pr : PayoutRequest)
    (hv : validateTransfer (stripCallbackUrl pr) = Except.ok ()) :
    (Disbursements.transfer validateTransfer uuid
        (fun _ => Except.ok resp) pr).result = Except.ok uuid ∧
    (Disbursements.transfer validateTransfer uuid
        (fun _ => Except.ok resp) pr).uuidCalls = 1 := by
  simp [Disbursements.transfer, hv]

/-- Witness for C2: the spec's transfer scenario payload against the mocked
201 response resolves with the generated identifier. -/
theorem transfer_resolves_with_generated_reference_witness :
    (Disbursements.transfer alwaysValid "413d154a-7855-4e57-983d-fe2b8b1f334d"
        (fun _ => Except.ok { data := () }) payoutRequest0).result =
      Except.ok "413d154a-7855-4e57-983d-fe2b8b1f334d" ∧
    (Disbursements.transfer alwaysValid "413d154a-7855-4e57-983d-fe2b8b1f334d"
        (fun _ => Except.ok { data := () }) payoutRequest0).uuidCalls = 1 :=
  transfer_resolves_with_generated_reference alwaysValid
    "413d154a-7855-4e57-983d-fe2b8b1f334d" { data := () } payoutRequest0 rfl

/-- C5: when the external validation collaborator rejects the payload,
`transfer` fails with that validation error, issues no HTTP request, never
invokes the uuid generator, and the only collaborator interaction is the
validation call itself (on the payload without `callbackUrl`). -/
theorem transfer_validation_failure_is_local
    (validateTransfer : TransferBody → Except ValidationError Unit)
    (uuid : String)
    (client : HttpRequest → Except RemoteError (HttpResponse Unit))
    (pr : PayoutRequest) (e : ValidationError)
    (hv : validateTransfer (stripCallbackUrl pr) = Except.error e) :
    (Disbursements.transfer validateTransfer uuid client pr).result =
      Except.error (TransferError.validation e) ∧
    (Disbursements.transfer validateTransfer uuid client pr).issued = [] ∧
    (Disbursements.transfer validateTransfer uuid client pr).uuidCalls = 0 ∧
    (Disbursements.transfer validateTransfer uuid client pr).validatedBodies =
      [stripCallbackUrl pr] := by
  simp [Disbursements.transfer, hv]

/-- Witness for C5: a rejecting validator makes `transfer` fail with the
validation error without any HTTP request or generated identifier. -/
theorem transfer_validation_failure_is_local_witness :
    (Disbursements.transfer rejectBody "ref-1" okClient payoutRequest0).result =
      Except.error (TransferError.validation { message := "invalid payload" }) ∧
    (Disbursements.transfer rejectBody "ref-1" okClient payoutRequest0).issued
      = [] ∧
    (Disbursements.transfer rejectBody "ref-1" okClient
        payoutRequest0).uuidCalls = 0 ∧
    (Disbursements.transfer rejectBody "ref-1" okClient
        payoutRequest0).validatedBodies = [stripCallbackUrl payoutRequest0] :=
  transfer_validation_failure_is_local rejectBody "ref-1" okClient
    payoutRequest0 { message := "invalid payload" } rfl

/-- C6 counterexample: a `PayoutRequest` whose caller-supplied `callbackUrl`
is the empty string. The caller did supply a `callbackUrl`, the POST is
issued, yet the issued request carries no `X-Callback-Url` header, because
the source guards the header with JavaScript truthiness
(`callbackUrl ? ... : {}`) and the empty string is falsy. -/
theorem transfer_callback_header_cex :
    payoutRequestEmptyCb.callbackUrl = some "" ∧
    (Disbursements.transfer alwaysValid "ref-1" okClient
        payoutRequestEmptyCb).issued =
      [Disbursements.transferRequest "ref-1" payoutRequestEmptyCb] ∧
    hasHeader "X-Callback-Url"
      (Disbursements.transferRequest "ref-1" payoutRequestEmptyCb) = false :=
  ⟨rfl, rfl, rfl⟩

/-- C6 (amended): for every valid `PayoutRequest`, `transfer` issues exactly
one POST to `/disbursement/v1_0/transfer` carrying `X-Reference-Id` equal to
the generated reference identifier, and it carries `X-Callback-Url` (with the
supplied value) if and only if the caller supplied a truthy — i.e. non-empty —
`callbackUrl`. -/
theorem transfer_one_post_with_reference_header
    (validateTransfer : TransferBody → Except ValidationError Unit)
    (uuid : String)
    (client : HttpRequest → Except RemoteError (HttpResponse Unit))
    (pr : PayoutRequest)
    (hv : validateTransfer (stripCallbackUrl pr) = Except.ok ()) :
    (Disbursements.transfer validateTransfer uuid client pr).issued =
      [Disbursements.transferRequest uuid pr] ∧
    (Disbursements.transferRequest uuid pr).method = Method.POST ∧
    (Disbursements.transferRequest uuid pr).path =
      "/disbursement/v1_0/transfer" ∧
    headerValue "X-Reference-Id" (Disbursements.transferRequest uuid pr) =
      some uuid ∧
    headerValue "X-Callback-Url" (Disbursements.transferRequest uuid pr) =
      (match pr.callbackUrl with
       | some u => if u == "" then none else some u
       | none => none) := by
  refine ⟨?_, rfl, rfl, ?_, ?_⟩
  · simp only [Disbursements.transfer, hv]
    cases client (Disbursements.transferRequest uuid pr) with
    | error e => rfl
    | ok r => rfl
  · simp [headerValue, Disbursements.transferRequest]
  · cases hcb : pr.callbackUrl with
    | none => simp [headerValue, Disbursements.transferRequest, hcb]
    | some u =>
        cases hu : u == "" with
        | false =>
            simp [headerValue, Disbursements.transferRequest, hcb, hu]
        | true =>
            simp [headerValue, Disbursements.transferRequest, hcb, hu]

/-- Witness for C6 (amended): a payload with a non-empty `callbackUrl`
produces one POST with both headers. -/
theorem transfer_one_post_with_reference_header_witness :
    (Disbursements.transfer alwaysValid "ref-9" okClient
        payoutRequestCb).issued =
      [Disbursements.transferRequest "ref-9" payoutRequestCb] ∧
    (Disbursements.transferRequest "ref-9" payoutRequestCb).method =
      Method.POST ∧
    (Disbursements.transferRequest "ref-9" payoutRequestCb).path =
      "/disbursement/v1_0/transfer" ∧
    headerValue "X-Reference-Id"
      (Disbursements.transferRequest "ref-9" payoutRequestCb) = some "ref-9" ∧
    headerValue "X-Callback-Url"
      (Disbursements.transferRequest "ref-9" payoutRequestCb) =
      (match payoutRequestCb.callbackUrl with
       | some u => if u == "" then none else some u
       | none => none) :=
  transfer_one_post_with_reference_header alwaysValid "ref-9" okClient
    payoutRequestCb rfl

/-- C10: for every `PayoutRequest` containing a `callbackUrl`, the body of the
POST built by `transfer` is exactly the request with the `callbackUrl` field
removed (all other fields unchanged), and the validation collaborator is
invoked exactly on that same stripped payload. -/
theorem transfer_strips_callback_from_body_and_validation
    (validateTransfer : TransferBody → Except ValidationError Unit)
    (uuid : String)
    (client : HttpRequest → Except RemoteError (HttpResponse Unit))
    (pr : PayoutRequest) (u : String)
    (hcb : pr.callbackUrl = some u) :
    (Disbursements.transfer validateTransfer uuid client pr).validatedBodies =
      [stripCallbackUrl pr] ∧
    (Disbursements.transferRequest uuid pr).body =
      some (stripCallbackUrl pr) ∧
    (stripCallbackUrl pr).amount = pr.amount ∧
    (stripCallbackUrl pr).currency = pr.currency ∧
    (stripCallbackUrl pr).externalId = pr.externalId ∧
    (stripCallbackUrl pr).payee = pr.payee ∧
    (stripCallbackUrl pr).payerMessage = pr.payerMessage ∧
    (stripCallbackUrl pr).payeeNote = pr.payeeNote := by
  refine ⟨?_, rfl, rfl, rfl, rfl, rfl, rfl, rfl⟩
  simp only [Disbursements.transfer]
  cases validateTransfer (stripCallbackUrl pr) with
  | error e => rfl
  | ok v =>
      cases client (Disbursements.transferRequest uuid pr) with
      | error e => rfl
      | ok r => rfl

/-- Witness for C10: the scenario payload with a callback URL. -/
theorem transfer_strips_callback_witness :
    (Disbursements.transfer alwaysValid "ref-3" okClient
        payoutRequestCb).validatedBodies = [stripCallbackUrl payoutRequestCb] ∧
    (Disbursements.transferRequest "ref-3" payoutRequestCb).body =
      some (stripCallbackUrl payoutRequestCb) ∧
    (stripCallbackUrl payoutRequestCb).amount = payoutRequestCb.amount ∧
    (stripCallbackUrl payoutRequestCb).currency = payoutRequestCb.currency ∧
    (stripCallbackUrl payoutRequestCb).externalId =
      payoutRequestCb.externalId ∧
    (stripCallbackUrl payoutRequestCb).payee = payoutRequestCb.payee ∧
    (stripCallbackUrl payoutRequestCb).payerMessage =
      payoutRequestCb.payerMessage ∧
    (stripCallbackUrl payoutRequestCb).payeeNote =
      payoutRequestCb.payeeNote :=
  transfer_strips_callback_from_body_and_validation alwaysValid "ref-3"
    okClient payoutRequestCb "http://localhost:8000/callback" rfl

/-- C7: `getTransaction(referenceId)` issues one GET to
`/disbursement/v1_0/transfer/{referenceId}` and resolves with the decoded
response body unmodified; `getBalance()` issues one GET to
`/disbursement/v1_0/account/balance` and resolves with exactly the decoded
`{availableBalance, currency}` structure. -/
theorem getTransaction_getBalance_decode_unmodified
    (clientT : HttpRequest → Except RemoteError (HttpResponse Transfer))
    (clientB : HttpRequest → Except RemoteError (HttpResponse AccountBalance))
    (referenceId : String) (t : Transfer) (b : AccountBalance)
    (ht : clientT (Disbursements.getTransactionRequest referenceId) =
      Except.ok { data := t })
    (hb : clientB Disbursements.getBalanceRequest = Except.ok { data := b }) :
    Disbursements.getTransaction clientT referenceId =
      (Except.ok t, [Disbursements.getTransactionRequest referenceId]) ∧
    (Disbursements.getTransactionRequest referenceId).method = Method.GET ∧
    (Disbursements.getTransactionRequest referenceId).path =
      "/disbursement/v1_0/transfer/" ++ referenceId ∧
    Disbursements.getBalance clientB =
      (Except.ok b, [Disbursements.getBalanceRequest]) ∧
    Disbursements.getBalanceRequest.method = Method.GET ∧
    Disbursements.getBalanceRequest.path =
      "/disbursement/v1_0/account/balance" := by
  refine ⟨?_, rfl, rfl, ?_, rfl, rfl⟩
  · simp [Disbursements.getTransaction, ht, Except.map]
  · simp [Disbursements.getBalance, hb, Except.map]

/-- Witness for C7: the mocked responses of `src/tests/mock.ts` are returned
unmodified. -/
theorem getTransaction_getBalance_decode_unmodified_witness :
    Disbursements.getTransaction (fun _ => Except.ok { data := transferRecord0 })
        "7c2d3a10-5b1f-4f79-a5f3-4f3e5f9c0a11" =
      (Except.ok transferRecord0,
       [Disbursements.getTransactionRequest
          "7c2d3a10-5b1f-4f79-a5f3-4f3e5f9c0a11"]) ∧
    (Disbursements.getTransactionRequest
        "7c2d3a10-5b1f-4f79-a5f3-4f3e5f9c0a11").method = Method.GET ∧
    (Disbursements.getTransactionRequest
        "7c2d3a10-5b1f-4f79-a5f3-4f3e5f9c0a11").path =
      "/disbursement/v1_0/transfer/" ++ "7c2d3a10-5b1f-4f79-a5f3-4f3e5f9c0a11" ∧
    Disbursements.getBalance (fun _ => Except.ok { data := balance0 }) =
      (Except.ok balance0, [Disbursements.getBalanceRequest]) ∧
    Disbursements.getBalanceRequest.method = Method.GET ∧
    Disbursements.getBalanceRequest.path =
      "/disbursement/v1_0/account/balance" :=
  getTransaction_getBalance_decode_unmodified
    (fun _ => Except.ok { data := transferRecord0 })
    (fun _ => Except.ok { data := balance0 })
    "7c2d3a10-5b1f-4f79-a5f3-4f3e5f9c0a11" transferRecord0 balance0 rfl rfl

/-- C3 counterexample: the claim says the account-balance check is issued
without the bearer credential. But the factory wires the Disbursements façade
— `getBalance` and `isPayerActive` included — to `createAuthClient`, so the
balance request reaches the wire carrying the bearer credential. -/
theorem balance_request_carries_bearer_cex :
    makeDisbursements okConfigValidator emptyConfig emptyConfig =
      Except.ok disbHandle0 ∧
    hasBearer (issueThrough disbHandle0.transport "token-1"
      Disbursements.getBalanceRequest) = true :=
  ⟨rfl, rfl⟩

/-- C3 (amended): every business request issued by a product handle wired by
the factory's `Collections` or `Disbursements` closure — balance and
account-holder-active checks included — carries the bearer credential
attached by the AuthenticatingTransport; only `Users` handles are on the
plain transport. -/
theorem product_requests_carry_bearer
    (vp : ConfigMap → Except ConfigurationError Unit)
    (globalConfig productConfig : ConfigMap) (h : HandleDescr)
    (hok : makeCollections vp globalConfig productConfig = Except.ok h ∨
      makeDisbursements vp globalConfig productConfig = Except.ok h)
    (token : String) (r : HttpRequest) :
    hasBearer (issueThrough h.transport token r) = true := by
  cases hok with
  | inl hcol =>
      simp only [makeCollections] at hcol
      cases hvp : vp productConfig with
      | error e => rw [hvp] at hcol; exact absurd hcol (by simp)
      | ok v =>
          rw [hvp] at hcol
          simp only [Except.ok.injEq] at hcol
          subst hcol
          simp [issueThrough, attachBearer, hasBearer, hasHeader]
  | inr hdis =>
      simp only [makeDisbursements, Except.ok.injEq] at hdis
      subst hdis
      simp [issueThrough, attachBearer, hasBearer, hasHeader]

/-- Witness for C3 (amended): the balance request of a factory-built
Collections handle and the account-holder-active request of a factory-built
Disbursements handle both carry the bearer credential. -/
theorem product_requests_carry_bearer_witness :
    hasBearer (issueThrough collectionsHandle0.transport "token-1"
      Disbursements.getBalanceRequest) = true ∧
    hasBearer (issueThrough disbHandle0.transport "token-1"
      (Disbursements.isPayerActiveRequest PartyIdType.MSISDN
        "256772000000")) = true :=
  ⟨product_requests_carry_bearer okConfigValidator emptyConfig emptyConfig
      collectionsHandle0 (Or.inl rfl) "token-1"
      Disbursements.getBalanceRequest,
   product_requests_carry_bearer okConfigValidator emptyConfig emptyConfig
      disbHandle0 (Or.inr rfl) "token-1"
      (Disbursements.isPayerActiveRequest PartyIdType.MSISDN
        "256772000000")⟩

/-- C4: the factory's `Collections` closure rejects a product configuration
its validator rejects, but the `Disbursements` closure never invokes
`validateProductConfig` (the import is unused in that branch of
`src/unnamed/part_000`), so it constructs the handle from the very same
invalid configuration without raising any `ConfigurationError` — contradicting
the spec, whose intent the sibling `Collections`/`Users` closures follow. -/
theorem disbursements_factory_skips_validation :
    makeCollections rejectConfigValidator emptyConfig emptyConfig =
      Except.error { message := "missing required configuration" } ∧
    makeDisbursements rejectConfigValidator emptyConfig emptyConfig =
      Except.ok disbHandle0 :=
  ⟨rfl, rfl⟩

/-- C8: the configuration value built at handle construction,
`{ ...defaultGlobalConfig, ...globalConfig, ...productConfig }`, is the pure
merge with override precedence product-level > caller-supplied global >
built-in defaults: any key present in a higher-precedence layer wins, and a
key present in no layer falls through to the built-in defaults. -/
theorem buildConfig_precedence (globalConfig productConfig : ConfigMap)
    (k : String) :
    (∀ v, productConfig k = some v →
      buildConfig globalConfig productConfig k = some v) ∧
    (productConfig k = none → ∀ v, globalConfig k = some v →
      buildConfig globalConfig productConfig k = some v) ∧
    (productConfig k = none → globalConfig k = none →
      buildConfig globalConfig productConfig k = defaultGlobalConfig k) := by
  refine ⟨?_, ?_, ?_⟩ <;> intros <;> simp_all [buildConfig, spreadOver]

/-- Witness for C8: a key in all three layers resolves to the product value,
a key in the global layer only resolves to the global value, and an untouched
key falls through to the built-in default. -/
theorem buildConfig_precedence_witness :
    buildConfig gConfig0 pConfig0 "primaryKey" = some "product-key" ∧
    buildConfig gConfig0 pConfig0 "environment" = some "production" ∧
    buildConfig gConfig0 pConfig0 "baseUrl" = defaultGlobalConfig "baseUrl" :=
  ⟨(buildConfig_precedence gConfig0 pConfig0 "primaryKey").1
      "product-key" rfl,
   (buildConfig_precedence gConfig0 pConfig0 "environment").2.1 rfl
      "production" rfl,
   (buildConfig_precedence gConfig0 pConfig0 "baseUrl").2.2 rfl rfl⟩

/-- C9: every handle built by the factory's `Users` closure is wired to the
plain `createClient` transport: no TokenRefresher is created for it, and a
request issued through its transport reaches the wire unchanged — in
particular with no bearer credential attached. -/
theorem users_handle_plain_no_refresher
    (validateSubscriptionConfig : ConfigMap → Except ConfigurationError Unit)
    (globalConfig subscriptionConfig : ConfigMap) (h : HandleDescr)
    (hok : makeUsers validateSubscriptionConfig globalConfig
      subscriptionConfig = Except.ok h) :
    h.transport = TransportKind.plain ∧
    h.tokenRefresherCreated = false ∧
    ∀ (token : String) (r : HttpRequest),
      issueThrough h.transport token r = r := by
  simp only [makeUsers] at hok
  cases hvs : validateSubscriptionConfig subscriptionConfig with
  | error e => rw [hvs] at hok; exact absurd hok (by simp)
  | ok v =>
      rw [hvs] at hok
      simp only [Except.ok.injEq] at hok
      subst hok
      exact ⟨rfl, rfl, fun token r => rfl⟩

/-- Witness for C9: the factory-built Users handle is on the plain transport
and passes a user-provisioning request through unchanged. -/
theorem users_handle_plain_no_refresher_witness :
    usersHandle0.transport = TransportKind.plain ∧
    usersHandle0.tokenRefresherCreated = false ∧
    issueThrough usersHandle0.transport "token-1"
        { method := Method.POST, path := "/v1_0/apiuser", headers := [],
          body := none } =
      { method := Method.POST, path := "/v1_0/apiuser", headers := [],
        body := none } := by
  have h := users_handle_plain_no_refresher okConfigValidator emptyConfig
    emptyConfig usersHandle0 rfl
  exact ⟨h.1, h.2.1, h.2.2 "token-1" _⟩
